import Mathlib

/-!
Verification of the volkern MCP server (src/index.ts): a tool registry and a
dispatcher that maps tool invocations onto HTTP requests against a remote CRM
API.  The dispatcher logic of src/index.ts is embedded shallowly below:
JavaScript runtime values that can appear in a tool argument object are
modelled by the inductive type Json, argument objects by association lists,
and the dispatch switch of handleToolCall by a state-passing function that
returns both the built request and the (unchanged) argument object.
-/

namespace Volkern

/-- A JSON value as delivered by the MCP request parser: the dynamic values
that can appear in a tool argument object and in a remote response body.
Numeric arguments are modelled as integers (the schemas only use whole
numbers such as page, limit and duracion). -/
inductive Json where
  | null : Json
  | bool (b : Bool) : Json
  | num (n : Int) : Json
  | str (s : String) : Json
  | arr (xs : List Json) : Json
  | obj (kvs : List (String × Json)) : Json
deriving Repr

/-- An argument object, Record of string to unknown in the source, modelled
as an association list that preserves insertion order. -/
def Args := List (String × Json)

instance : Membership (String × Json) Args := inferInstanceAs (Membership _ (List _))

/-- Property read args.k on a JavaScript object: the value at the first
binding of the key, or none for the JavaScript undefined. -/
def lookupArg (args : Args) (k : String) : Option Json :=
  (List.find? (fun p => p.1 = k) args).map Prod.snd

/-- Rest-destructuring: the residual object after removing the key, as in
the source lines such as const \x7b leadId, ...data \x7d = args. -/
def eraseKey (args : Args) (k : String) : Args :=
  List.filter (fun p => decide (p.1 ≠ k)) args

/-- JavaScript truthiness of a defined value: false for false, 0 and the
empty string and null; true for every array and object. -/
def truthy : Json → Bool
  | .null => false
  | .bool b => b
  | .num n => n != 0
  | .str s => s != ""
  | .arr _ => true
  | .obj _ => true

/-- Truthiness of a possibly-undefined property read (undefined is falsy). -/
def truthyOpt : Option Json → Bool
  | none => false
  | some v => truthy v

mutual

/-- The JavaScript String() conversion used by the source in
String(args.x) and in template literals: numbers and booleans become their
textual form, null becomes "null", arrays join their elements with commas,
plain objects become "[object Object]". -/
def jsString : Json → String
  | .null => "null"
  | .bool b => cond b "true" "false"
  | .num n => toString n
  | .str s => s
  | .arr xs => jsStringArr xs
  | .obj _ => "[object Object]"
termination_by structural j => j

/-- Array.prototype.toString: elements joined with commas, a null element
rendering as the empty string. -/
def jsStringArr : List Json → String
  | [] => ""
  | [.null] => ""
  | [x] => jsString x
  | .null :: y :: ys => "," ++ jsStringArr (y :: ys)
  | x :: y :: ys => jsString x ++ "," ++ jsStringArr (y :: ys)
termination_by structural xs => xs

end

/-- String conversion of a possibly-undefined property read, as in the
template literals of the source: undefined renders as "undefined". -/
def jsStringOpt : Option Json → String
  | none => "undefined"
  | some v => jsString v

/-- Lower-case hexadecimal digit. -/
def hexLower (n : Nat) : Char :=
  if n < 10 then Char.ofNat (48 + n) else Char.ofNat (87 + n)

/-- Upper-case hexadecimal digit. -/
def hexUpper (n : Nat) : Char :=
  if n < 10 then Char.ofNat (48 + n) else Char.ofNat (55 + n)

/-- One character of a JSON.stringify string body, escaped as by the
QuoteJSONString operation of ECMA-262. -/
def escChar (c : Char) : String :=
  let n := c.toNat
  if n = 34 then "\\\""
  else if n = 92 then "\\\\"
  else if n = 8 then "\\b"
  else if n = 9 then "\\t"
  else if n = 10 then "\\n"
  else if n = 12 then "\\f"
  else if n = 13 then "\\r"
  else if n < 32 then
    "\\u00" ++ String.singleton (hexLower (n / 16)) ++ String.singleton (hexLower (n % 16))
  else String.singleton c

/-- A JSON string literal: quotes around the escaped body. -/
def quoteJson (s : String) : String :=
  "\"" ++ String.join (s.toList.map escChar) ++ "\""

mutual

/-- JSON.stringify with no indent argument, as used by volkernRequest for
request bodies and for the remote error payload in the thrown message. -/
def jsonStringify : Json → String
  | .null => "null"
  | .bool b => cond b "true" "false"
  | .num n => toString n
  | .str s => quoteJson s
  | .arr xs => "[" ++ jsonStringifyArrItems xs ++ "]"
  | .obj kvs => "\x7b" ++ jsonStringifyObjItems kvs ++ "\x7d"
termination_by structural j => j

/-- Comma-separated compact serialization of array elements. -/
def jsonStringifyArrItems : List Json → String
  | [] => ""
  | [x] => jsonStringify x
  | x :: y :: ys => jsonStringify x ++ "," ++ jsonStringifyArrItems (y :: ys)
termination_by structural xs => xs

/-- Comma-separated compact serialization of object entries. -/
def jsonStringifyObjItems : List (String × Json) → String
  | [] => ""
  | [(k, v)] => quoteJson k ++ ":" ++ jsonStringify v
  | (k, v) :: e :: es => quoteJson k ++ ":" ++ jsonStringify v ++ "," ++ jsonStringifyObjItems (e :: es)
termination_by structural kvs => kvs

end

/-- A run of spaces for pretty-printed indentation. -/
def indentStr (n : Nat) : String :=
  String.mk (List.replicate n ' ')

mutual

/-- JSON.stringify with indent 2, as used by the call-tool request handler
on the successful result: current indentation is the first argument. -/
def stringifyInd : Nat → Json → String
  | _, .null => "null"
  | _, .bool b => cond b "true" "false"
  | _, .num n => toString n
  | _, .str s => quoteJson s
  | _, .arr [] => "[]"
  | ind, .arr (x :: xs) =>
      "[\n" ++ prettyArrItems (ind + 2) (x :: xs) ++ "\n" ++ indentStr ind ++ "]"
  | _, .obj [] => "\x7b\x7d"
  | ind, .obj (kv :: kvs) =>
      "\x7b\n" ++ prettyObjItems (ind + 2) (kv :: kvs) ++ "\n" ++ indentStr ind ++ "\x7d"
termination_by structural _ j => j

/-- Pretty-printed array elements, one per line at the given indentation. -/
def prettyArrItems : Nat → List Json → String
  | _, [] => ""
  | ind, [x] => indentStr ind ++ stringifyInd ind x
  | ind, x :: y :: ys =>
      indentStr ind ++ stringifyInd ind x ++ ",\n" ++ prettyArrItems ind (y :: ys)
termination_by structural _ xs => xs

/-- Pretty-printed object entries, one per line at the given indentation. -/
def prettyObjItems : Nat → List (String × Json) → String
  | _, [] => ""
  | ind, [(k, v)] => indentStr ind ++ quoteJson k ++ ": " ++ stringifyInd ind v
  | ind, (k, v) :: e :: es =>
      indentStr ind ++ quoteJson k ++ ": " ++ stringifyInd ind v ++ ",\n"
        ++ prettyObjItems ind (e :: es)
termination_by structural _ kvs => kvs

end

/-- JSON.stringify(result, null, 2), the envelope serialization. -/
def stringify2 (j : Json) : String :=
  stringifyInd 0 j

/-- Whether a byte survives URLSearchParams percent-encoding unchanged:
ASCII alphanumerics and the four marks star, minus, dot, underscore. -/
def byteAllowed (b : Nat) : Bool :=
  (48 ≤ b && b ≤ 57) || (65 ≤ b && b ≤ 90) || (97 ≤ b && b ≤ 122)
    || b = 42 || b = 45 || b = 46 || b = 95

/-- One byte of application/x-www-form-urlencoded output: space becomes a
plus sign, allowed bytes pass through, the rest are percent-escaped. -/
def urlEncodeByte (b : Nat) : String :=
  if b = 32 then "+"
  else if byteAllowed b then String.singleton (Char.ofNat b)
  else "%" ++ String.singleton (hexUpper (b / 16)) ++ String.singleton (hexUpper (b % 16))

/-- URLSearchParams component encoding over the UTF-8 bytes of a string
(the byte sequence is spelled out via utf8EncodeChar so that it reduces
inside the kernel). -/
def urlEncode (s : String) : String :=
  String.join ((s.data.flatMap String.utf8EncodeChar).map (fun b => urlEncodeByte b.toNat))

/-- URLSearchParams.toString: key=value pairs joined with ampersands. -/
def encodeParams (ps : List (String × String)) : String :=
  String.intercalate "&" (ps.map (fun p => urlEncode p.1 ++ "=" ++ urlEncode p.2))

/-- One entry of the tool registry: the tool name together with the
parameter names of its input schema and the subset marked required.  The
type, enum and description metadata of the schemas is pure documentation
and is used by no dispatch logic, so it is not transcribed here. -/
structure ToolDescriptor where
  name : String
  params : List String
  required : List String
deriving Repr, DecidableEq

/-- The static tool catalog of src/index.ts, in registration order. -/
def tools : List ToolDescriptor := [
  ⟨"volkern_list_leads", ["estado", "canal", "search", "page", "limit"], []⟩,
  ⟨"volkern_get_lead", ["leadId"], ["leadId"]⟩,
  ⟨"volkern_create_lead",
    ["nombre", "email", "telefono", "empresa", "canal", "estado", "etiquetas",
     "notas", "contextoProyecto"], ["nombre"]⟩,
  ⟨"volkern_update_lead",
    ["leadId", "nombre", "email", "telefono", "empresa", "canal", "estado",
     "etiquetas", "notas"], ["leadId"]⟩,
  ⟨"volkern_check_disponibilidad", ["fecha", "duracion"], ["fecha"]⟩,
  ⟨"volkern_list_citas", ["estado", "tipo", "fecha", "fechaInicio", "fechaFin"], []⟩,
  ⟨"volkern_create_cita",
    ["leadId", "fechaHora", "tipo", "titulo", "descripcion", "duracion",
     "servicioId"], ["leadId", "fechaHora"]⟩,
  ⟨"volkern_update_cita",
    ["citaId", "fechaHora", "estado", "descripcion", "duracion"], ["citaId"]⟩,
  ⟨"volkern_cita_accion", ["citaId", "accion", "nuevaFecha", "motivo"],
    ["citaId", "accion"]⟩,
  ⟨"volkern_list_servicios", ["activo"], []⟩,
  ⟨"volkern_get_servicio", ["servicioId"], ["servicioId"]⟩,
  ⟨"volkern_create_task",
    ["leadId", "tipo", "titulo", "descripcion", "fechaVencimiento", "asignadoA"],
    ["leadId", "tipo", "titulo", "fechaVencimiento"]⟩,
  ⟨"volkern_list_tasks", ["leadId"], ["leadId"]⟩,
  ⟨"volkern_complete_task", ["taskId"], ["taskId"]⟩,
  ⟨"volkern_send_whatsapp", ["leadId", "mensaje", "tipo"], ["leadId", "mensaje"]⟩,
  ⟨"volkern_list_conversaciones", ["leadId", "page", "limit"], []⟩,
  ⟨"volkern_list_interactions", ["leadId"], ["leadId"]⟩,
  ⟨"volkern_create_interaction",
    ["leadId", "tipo", "contenido", "resultado", "metadatos"],
    ["leadId", "tipo", "contenido"]⟩,
  ⟨"volkern_list_notes", ["leadId"], ["leadId"]⟩,
  ⟨"volkern_create_note", ["leadId", "contenido", "titulo"],
    ["leadId", "contenido"]⟩]

/-- Registry lookup by exact, case-sensitive name. -/
def findTool (name : String) : Option ToolDescriptor :=
  tools.find? (fun t => t.name = name)

/-- The names present in the registry. -/
def registryNames : List String :=
  tools.map ToolDescriptor.name

/-- The outbound request handed to volkernRequest: endpoint (path plus any
query string), HTTP method, and the optional JSON body object. -/
structure RequestSpec where
  endpoint : String
  method : String
  body : Option Args

/-- One conditional append of the query loops, translating the source
pattern: if (args.k) params.append("k", String(args.k)). -/
def addParam (args : Args) (k : String) : List (String × String) :=
  match lookupArg args k with
  | some v => if truthy v then [(k, jsString v)] else []
  | none => []

/-- The URLSearchParams built for volkern_list_leads. -/
def listLeadsParams (args : Args) : List (String × String) :=
  addParam args "estado" ++ addParam args "canal" ++ addParam args "search"
    ++ addParam args "page" ++ addParam args "limit"

/-- The URLSearchParams built for volkern_check_disponibilidad: fecha is
appended unconditionally, duracion only when truthy. -/
def checkDisponibilidadParams (args : Args) : List (String × String) :=
  [("fecha", jsStringOpt (lookupArg args "fecha"))] ++ addParam args "duracion"

/-- The URLSearchParams built for volkern_list_citas. -/
def listCitasParams (args : Args) : List (String × String) :=
  addParam args "estado" ++ addParam args "tipo" ++ addParam args "fecha"
    ++ addParam args "fechaInicio" ++ addParam args "fechaFin"

/-- The URLSearchParams built for volkern_list_servicios: the source tests
args.activo !== undefined, not truthiness. -/
def listServiciosParams (args : Args) : List (String × String) :=
  match lookupArg args "activo" with
  | some v => [("activo", jsString v)]
  | none => []

/-- The URLSearchParams built for volkern_list_conversaciones. -/
def listConversacionesParams (args : Args) : List (String × String) :=
  addParam args "leadId" ++ addParam args "page" ++ addParam args "limit"

/-- The dispatch switch of handleToolCall in src/index.ts, translated case
by case.  The function passes the argument-object state explicitly and
returns it alongside the result, so that the absence of mutation of the
caller-supplied arguments is a provable statement rather than an ambient
assumption: every source statement only reads args (property reads,
URLSearchParams appends, rest-destructuring), so every branch returns the
state unchanged.  A thrown error is an Except.error value; the default
branch throws Unknown tool. -/
def handleToolCall (name : String) (args : Args) :
    Except String RequestSpec × Args :=
  if name = "volkern_list_leads" then
    (.ok ⟨"/leads?" ++ encodeParams (listLeadsParams args), "GET", none⟩, args)
  else if name = "volkern_get_lead" then
    (.ok ⟨"/leads/" ++ jsStringOpt (lookupArg args "leadId"), "GET", none⟩, args)
  else if name = "volkern_create_lead" then
    (.ok ⟨"/leads", "POST", some args⟩, args)
  else if name = "volkern_update_lead" then
    let leadId := lookupArg args "leadId"
    let data := eraseKey args "leadId"
    (.ok ⟨"/leads/" ++ jsStringOpt leadId, "PATCH", some data⟩, args)
  else if name = "volkern_check_disponibilidad" then
    (.ok ⟨"/citas/disponibilidad?" ++ encodeParams (checkDisponibilidadParams args),
      "GET", none⟩, args)
  else if name = "volkern_list_citas" then
    (.ok ⟨"/citas?" ++ encodeParams (listCitasParams args), "GET", none⟩, args)
  else if name = "volkern_create_cita" then
    (.ok ⟨"/citas", "POST", some args⟩, args)
  else if name = "volkern_update_cita" then
    let citaId := lookupArg args "citaId"
    let data := eraseKey args "citaId"
    (.ok ⟨"/citas/" ++ jsStringOpt citaId, "PATCH", some data⟩, args)
  else if name = "volkern_cita_accion" then
    (.ok ⟨"/citas/accion", "POST", some args⟩, args)
  else if name = "volkern_list_servicios" then
    (.ok ⟨"/servicios?" ++ encodeParams (listServiciosParams args), "GET", none⟩, args)
  else if name = "volkern_get_servicio" then
    (.ok ⟨"/servicios/" ++ jsStringOpt (lookupArg args "servicioId"), "GET", none⟩, args)
  else if name = "volkern_create_task" then
    let leadId := lookupArg args "leadId"
    let taskData := eraseKey args "leadId"
    (.ok ⟨"/leads/" ++ jsStringOpt leadId ++ "/tasks", "POST", some taskData⟩, args)
  else if name = "volkern_list_tasks" then
    (.ok ⟨"/leads/" ++ jsStringOpt (lookupArg args "leadId") ++ "/tasks", "GET", none⟩, args)
  else if name = "volkern_complete_task" then
    (.ok ⟨"/tasks/" ++ jsStringOpt (lookupArg args "taskId"), "PATCH",
      some [("completada", Json.bool true)]⟩, args)
  else if name = "volkern_send_whatsapp" then
    (.ok ⟨"/mensajes/enviar", "POST", some args⟩, args)
  else if name = "volkern_list_conversaciones" then
    (.ok ⟨"/mensajes/conversaciones?" ++ encodeParams (listConversacionesParams args),
      "GET", none⟩, args)
  else if name = "volkern_list_interactions" then
    (.ok ⟨"/leads/" ++ jsStringOpt (lookupArg args "leadId") ++ "/interactions",
      "GET", none⟩, args)
  else if name = "volkern_create_interaction" then
    let leadId := lookupArg args "leadId"
    let interactionData := eraseKey args "leadId"
    (.ok ⟨"/leads/" ++ jsStringOpt leadId ++ "/interactions", "POST",
      some interactionData⟩, args)
  else if name = "volkern_list_notes" then
    (.ok ⟨"/leads/" ++ jsStringOpt (lookupArg args "leadId") ++ "/notes", "GET", none⟩, args)
  else if name = "volkern_create_note" then
    let noteLeadId := lookupArg args "leadId"
    let noteData := eraseKey args "leadId"
    (.ok ⟨"/leads/" ++ jsStringOpt noteLeadId ++ "/notes", "POST", some noteData⟩, args)
  else
    (.error ("Unknown tool: " ++ name), args)

/-- The request built for one tool call: the result component of the
dispatch switch. -/
def buildRequest (name : String) (args : Args) : Except String RequestSpec :=
  (handleToolCall name args).1

/-- The outcome of the one fetch performed by volkernRequest: the ok flag
and status of the Response, and the result of calling response.json() on it
(ok payload, or error when the body is not valid JSON and json() rejects). -/
structure HttpResponse where
  ok : Bool
  status : Nat
  jsonResult : Except String Json

/-- The RequestInit options assembled by volkernRequest: the body is
attached, JSON-serialized, only when a body object was passed and the
method is not GET. -/
structure FetchOptions where
  method : String
  authHeader : String
  contentType : String
  body : Option String

/-- Options construction in volkernRequest, including the guard
if (body && method !== "GET"): a passed body object is always truthy. -/
def mkFetchOptions (method : String) (body : Option Args) (apiKey : String) :
    FetchOptions :=
  { method := method
    authHeader := "Bearer " ++ apiKey
    contentType := "application/json"
    body :=
      match body with
      | some b => if method ≠ "GET" then some (jsonStringify (Json.obj b)) else none
      | none => none }

/-- The post-fetch logic of volkernRequest, given the HttpResponse the
fetch produced: a non-ok status throws the Volkern API Error message built
from the status code and the best-effort parsed error body (an empty object
when parsing fails, from the catch on response.json()); an ok status
returns response.json(), whose own failure propagates as a thrown error. -/
def volkernRequest (resp : HttpResponse) : Except String Json :=
  if resp.ok = false then
    let errorData := match resp.jsonResult with
      | .ok j => j
      | .error _ => Json.obj []
    .error ("Volkern API Error (" ++ toString resp.status ++ "): "
      ++ jsonStringify errorData)
  else
    resp.jsonResult

/-- One full dispatch up to the transport: build the request for the named
tool, then run the transport against the simulated HTTP response.  An
unknown tool throws before any request is performed; the model performs at
most the single fetch represented by resp, so no retry exists by
construction. -/
def invoke (name : String) (args : Args) (resp : HttpResponse) :
    Except String Json :=
  match buildRequest name args with
  | .error e => .error e
  | .ok _ => volkernRequest resp

/-- One item of the result content list of the call-tool handler. -/
structure ContentItem where
  type : String
  text : String

/-- The uniform result envelope of the CallToolRequestSchema handler: a
content list, and the isError field which is absent (none) on success and
true on failure. -/
structure Envelope where
  content : List ContentItem
  isError : Option Bool

/-- The CallToolRequestSchema handler of src/index.ts: try the dispatch,
serialize a successful result with JSON.stringify(result, null, 2), and
catch any thrown error into an Error: message envelope with isError true.
Total by construction: every dispatch produces exactly one envelope. -/
def callToolHandler (name : String) (args : Args) (resp : HttpResponse) :
    Envelope :=
  match invoke name args resp with
  | .ok result => ⟨[⟨"text", stringify2 result⟩], none⟩
  | .error msg => ⟨[⟨"text", "Error: " ++ msg⟩], some true⟩

/-- Whether the first character list begins the second. -/
def listStarts : List Char → List Char → Bool
  | [], _ => true
  | _ :: _, [] => false
  | c :: cs, d :: ds => c == d && listStarts cs ds

/-- Whether the needle occurs somewhere in the haystack. -/
def listHas (needle : List Char) : List Char → Bool
  | [] => listStarts needle []
  | d :: ds => listStarts needle (d :: ds) || listHas needle ds

/-- Substring test used to state containment of status codes and error
payloads in failure messages. -/
def containsStr (hay needle : String) : Bool :=
  listHas needle.data hay.data

/-! ## Helper lemmas -/

/-- The key removed by rest-destructuring is absent from the keys of the
residual object. -/
theorem eraseKey_fst_not_mem (args : Args) (k : String) :
    k ∉ (eraseKey args k).map Prod.fst := by
  simp only [eraseKey, List.mem_map, List.mem_filter, decide_eq_true_eq]
  rintro ⟨p, ⟨-, hne⟩, hk⟩
  exact hne hk

/-- Membership in one conditional query append: the pair is present exactly
when the key matches, the argument is a supplied truthy value, and the
recorded string is its String() conversion. -/
theorem mem_addParam {args : Args} {k k' s : String} :
    (k, s) ∈ addParam args k' ↔
      k = k' ∧ ∃ v, lookupArg args k' = some v ∧ truthy v = true ∧ s = jsString v := by
  unfold addParam
  cases h : lookupArg args k' with
  | none => simp
  | some v =>
    by_cases ht : truthy v
    · simp only [ht, if_pos, List.mem_singleton, Prod.mk.injEq, Option.some.injEq]
      constructor
      · rintro ⟨rfl, rfl⟩
        exact ⟨rfl, v, rfl, ht, rfl⟩
      · rintro ⟨rfl, w, hw, -, rfl⟩
        cases hw
        exact ⟨rfl, rfl⟩
    · simp only [ht, if_neg, Bool.false_eq_true, not_false_iff, List.not_mem_nil,
        false_iff, not_and]
      rintro rfl ⟨w, hw, htw, -⟩
      cases hw
      exact ht htw

/-! ## Claim theorems -/

/-- C1: for every tool name not present in the registry, invoking it with
any argument object and any transport outcome returns the Failure envelope
whose text is the literal Error: Unknown tool: name with isError true; the
thrown error is caught by the handler, so no fault escapes to the caller. -/
theorem unknown_tool_failure (name : String) (args : Args) (resp : HttpResponse)
    (h : name ∉ registryNames) :
    callToolHandler name args resp =
      ⟨[⟨"text", "Error: Unknown tool: " ++ name⟩], some true⟩ := by
  simp only [registryNames, tools, List.map_cons, List.map_nil, List.mem_cons,
    List.not_mem_nil, or_false] at h
  push_neg at h
  obtain ⟨h1, h2, h3, h4, h5, h6, h7, h8, h9, h10, h11, h12, h13, h14, h15,
    h16, h17, h18, h19, h20⟩ := h
  simp [callToolHandler, invoke, buildRequest, handleToolCall,
    h1, h2, h3, h4, h5, h6, h7, h8, h9, h10, h11, h12, h13, h14, h15, h16,
    h17, h18, h19, h20, ← String.append_assoc]

/-- Witness for C1 at the concrete unregistered name volkern_delete_lead. -/
theorem unknown_tool_failure_witness :
    ("volkern_delete_lead" ∉ registryNames) ∧
    callToolHandler "volkern_delete_lead" [] ⟨true, 200, .ok .null⟩ =
      ⟨[⟨"text", "Error: Unknown tool: volkern_delete_lead"⟩], some true⟩ :=
  ⟨by decide, unknown_tool_failure "volkern_delete_lead" [] ⟨true, 200, .ok .null⟩ (by decide)⟩

/-- C2: every dispatch produces exactly one envelope holding one text item,
and the envelope is either the success shape (the JSON-serialized payload,
isError absent) when the underlying call succeeds, or the failure shape
(Error: message, isError true) when an error is thrown; in particular a
simulated remote success with body id 42 for volkern_create_lead yields the
success envelope of that payload. -/
theorem dispatch_envelope (name : String) (args : Args) (resp : HttpResponse) :
    ((callToolHandler name args resp).content.map ContentItem.type = ["text"]) ∧
    ((∃ j, invoke name args resp = .ok j ∧
        callToolHandler name args resp = ⟨[⟨"text", stringify2 j⟩], none⟩) ∨
     (∃ m, invoke name args resp = .error m ∧
        callToolHandler name args resp = ⟨[⟨"text", "Error: " ++ m⟩], some true⟩)) ∧
    (callToolHandler "volkern_create_lead" [("nombre", .str "Juan")]
        ⟨true, 200, .ok (.obj [("id", .str "42")])⟩ =
      ⟨[⟨"text", stringify2 (.obj [("id", .str "42")])⟩], none⟩) := by
  refine ⟨?_, ?_, rfl⟩ <;>
    cases hinv : invoke name args resp <;> simp [callToolHandler, hinv]

/-- C3: a non-success HTTP status makes the transport throw the Volkern API
Error message embedding the numeric status code and the JSON-serialization
of the best-effort parsed error payload (an empty object when the error
body is not valid JSON); in particular a simulated 409 with body error
slot_taken for volkern_create_cita yields a Failure whose message contains
409 and slot_taken.  The model performs at most one transport call per
dispatch, so the failed call is never retried. -/
theorem remote_error_failure (resp : HttpResponse) (h : resp.ok = false) :
    (volkernRequest resp =
      .error ("Volkern API Error (" ++ toString resp.status ++ "): "
        ++ jsonStringify (match resp.jsonResult with
            | .ok j => j
            | .error _ => Json.obj []))) ∧
    (invoke "volkern_create_cita"
        [("leadId", .str "L1"), ("fechaHora", .str "2026-02-10T10:00:00Z")]
        ⟨false, 409, .ok (.obj [("error", .str "slot_taken")])⟩ =
      .error "Volkern API Error (409): \x7b\"error\":\"slot_taken\"\x7d") ∧
    (containsStr "Volkern API Error (409): \x7b\"error\":\"slot_taken\"\x7d" "409" = true) ∧
    (containsStr "Volkern API Error (409): \x7b\"error\":\"slot_taken\"\x7d" "slot_taken" = true) ∧
    (volkernRequest ⟨false, 500, .error "invalid json body"⟩ =
      .error "Volkern API Error (500): \x7b\x7d") := by
  refine ⟨?_, rfl, by decide, by decide, rfl⟩
  simp [volkernRequest, h]

/-- Witness for C3 at the concrete 409 response. -/
theorem remote_error_failure_witness :
    volkernRequest ⟨false, 409, .ok (.obj [("error", .str "slot_taken")])⟩ =
      .error ("Volkern API Error (" ++ toString (409 : Nat) ++ "): "
        ++ jsonStringify (Json.obj [("error", .str "slot_taken")])) :=
  (remote_error_failure ⟨false, 409, .ok (.obj [("error", .str "slot_taken")])⟩ rfl).1

/-- C4: for each tool whose path template embeds an identifier taken from
the arguments and which sends a body (volkern_update_lead,
volkern_update_cita, volkern_create_task, volkern_create_interaction,
volkern_create_note), the identifier key is removed from the outgoing body,
so it never appears both as a path segment and as a payload field; in
particular updating lead abc123 with nombre X issues PATCH /leads/abc123
with body exactly nombre X. -/
theorem path_identifier_stripped (args : Args) :
    (buildRequest "volkern_update_lead" args =
      .ok ⟨"/leads/" ++ jsStringOpt (lookupArg args "leadId"), "PATCH",
        some (eraseKey args "leadId")⟩) ∧
    (buildRequest "volkern_update_cita" args =
      .ok ⟨"/citas/" ++ jsStringOpt (lookupArg args "citaId"), "PATCH",
        some (eraseKey args "citaId")⟩) ∧
    (buildRequest "volkern_create_task" args =
      .ok ⟨"/leads/" ++ jsStringOpt (lookupArg args "leadId") ++ "/tasks", "POST",
        some (eraseKey args "leadId")⟩) ∧
    (buildRequest "volkern_create_interaction" args =
      .ok ⟨"/leads/" ++ jsStringOpt (lookupArg args "leadId") ++ "/interactions", "POST",
        some (eraseKey args "leadId")⟩) ∧
    (buildRequest "volkern_create_note" args =
      .ok ⟨"/leads/" ++ jsStringOpt (lookupArg args "leadId") ++ "/notes", "POST",
        some (eraseKey args "leadId")⟩) ∧
    ("leadId" ∉ (eraseKey args "leadId").map Prod.fst) ∧
    ("citaId" ∉ (eraseKey args "citaId").map Prod.fst) ∧
    (buildRequest "volkern_update_lead" [("leadId", .str "abc123"), ("nombre", .str "X")] =
      .ok ⟨"/leads/abc123", "PATCH", some [("nombre", .str "X")]⟩) :=
  ⟨rfl, rfl, rfl, rfl, rfl,
    eraseKey_fst_not_mem args "leadId", eraseKey_fst_not_mem args "citaId", rfl⟩

/-- Every pair emitted into the volkern_list_leads query string records a
supplied, truthy argument value, stringified with String(). -/
theorem mem_listLeadsParams {args : Args} {k s : String}
    (h : (k, s) ∈ listLeadsParams args) :
    ∃ v, lookupArg args k = some v ∧ truthy v = true ∧ s = jsString v := by
  simp only [listLeadsParams, List.mem_append] at h
  rcases h with ((((h | h) | h) | h) | h) <;>
  · obtain ⟨rfl, v, hv, ht, rfl⟩ := mem_addParam.mp h
    exact ⟨v, hv, ht, rfl⟩

/-- C5: query building for volkern_list_leads with estado nuevo and page 2
produces exactly the parameters estado=nuevo and page=2; every pair that
appears in the query records a supplied value in stringified form (numbers
and booleans become their textual form), and a parameter that was not
supplied never appears. -/
theorem list_leads_query (args : Args) (k s : String) :
    (listLeadsParams [("estado", .str "nuevo"), ("page", .num 2)] =
      [("estado", "nuevo"), ("page", "2")]) ∧
    (buildRequest "volkern_list_leads" [("estado", .str "nuevo"), ("page", .num 2)] =
      .ok ⟨"/leads?estado=nuevo&page=2", "GET", none⟩) ∧
    ((k, s) ∈ listLeadsParams args →
      ∃ v, lookupArg args k = some v ∧ truthy v = true ∧ s = jsString v) ∧
    (lookupArg args k = none → k ∉ (listLeadsParams args).map Prod.fst) := by
  refine ⟨rfl, rfl, fun h => mem_listLeadsParams h, fun hnone hk => ?_⟩
  obtain ⟨⟨k1, s1⟩, hmem, hfst⟩ := List.mem_map.mp hk
  cases hfst
  obtain ⟨v, hv, -, -⟩ := mem_listLeadsParams hmem
  rw [hnone] at hv
  cases hv

/-- Witness for C5: the implications discharged at concrete inputs. -/
theorem list_leads_query_witness :
    (∃ v, lookupArg [("estado", Json.str "nuevo"), ("page", Json.num 2)] "estado" = some v
      ∧ truthy v = true ∧ "nuevo" = jsString v) ∧
    ("canal" ∉ (listLeadsParams [("estado", Json.str "nuevo")]).map Prod.fst) :=
  ⟨(list_leads_query [("estado", Json.str "nuevo"), ("page", Json.num 2)]
      "estado" "nuevo").2.2.1 (by simp [listLeadsParams, addParam, lookupArg, truthy, jsString]),
   (list_leads_query [("estado", Json.str "nuevo")] "canal" "").2.2.2 rfl⟩

/-- C6 counterexample: the core performs no required-keys check.  The
registry marks leadId required for volkern_get_lead, yet invoking it with
an empty argument object is not rejected: the dispatcher builds a normal
GET request whose path interpolates the missing identifier as the string
undefined, and with a successful transport the envelope carries no error. -/
theorem required_keys_not_validated :
    ((findTool "volkern_get_lead").map ToolDescriptor.required = some ["leadId"]) ∧
    (lookupArg [] "leadId" = none) ∧
    (buildRequest "volkern_get_lead" [] = .ok ⟨"/leads/undefined", "GET", none⟩) ∧
    ((callToolHandler "volkern_get_lead" [] ⟨true, 200, .ok (.obj [])⟩).isError = none) :=
  ⟨rfl, rfl, rfl, rfl⟩

/-- C6 amended: the core performs no argument validation at all — neither
required keys nor types are checked; for every registered tool and every
argument object the dispatcher builds a request without local rejection,
leaving all validation to the remote API. -/
theorem no_argument_validation (name : String) (args : Args)
    (h : name ∈ registryNames) :
    ∃ spec, buildRequest name args = .ok spec := by
  simp only [registryNames, tools, List.map_cons, List.map_nil, List.mem_cons,
    List.not_mem_nil, or_false] at h
  rcases h with rfl | rfl | rfl | rfl | rfl | rfl | rfl | rfl | rfl | rfl | rfl
    | rfl | rfl | rfl | rfl | rfl | rfl | rfl | rfl | rfl <;>
    exact ⟨_, rfl⟩

/-- Witness for the amended C6 at a concrete registered tool. -/
theorem no_argument_validation_witness :
    ("volkern_create_cita" ∈ registryNames) ∧
    ∃ spec, buildRequest "volkern_create_cita" [] = .ok spec :=
  ⟨by decide, no_argument_validation "volkern_create_cita" [] (by decide)⟩

/-- C7: invoking volkern_get_lead with leadId abc123 targets /leads/abc123
with method GET and no body; and the transport attaches a serialized body
to the fetch options only when one was passed and the method is not GET. -/
theorem get_lead_request (body : Option Args) (method apiKey : String) :
    (buildRequest "volkern_get_lead" [("leadId", Json.str "abc123")] =
      .ok ⟨"/leads/abc123", "GET", none⟩) ∧
    ((mkFetchOptions "GET" body apiKey).body = none) ∧
    ((mkFetchOptions method none apiKey).body = none) := by
  refine ⟨rfl, ?_, rfl⟩
  cases body with
  | none => rfl
  | some b => simp [mkFetchOptions]

/-- C8: no dispatch mutates the caller-supplied argument object.  The
state-passing embedding of handleToolCall returns the argument object
alongside the result, and the returned state always equals the input, so
the mapping rules are pure functions of the arguments; in particular the
identifier stripping for volkern_update_lead builds a fresh residual map
and leaves the leadId binding visible to the caller afterwards. -/
theorem dispatch_no_mutation (name : String) (args : Args) :
    ((handleToolCall name args).2 = args) ∧
    (handleToolCall name ((handleToolCall name args).2) = handleToolCall name args) ∧
    (lookupArg (handleToolCall "volkern_update_lead" args).2 "leadId" =
      lookupArg args "leadId") := by
  have h2 : (handleToolCall name args).2 = args := by
    simp only [handleToolCall, apply_ite Prod.snd, ite_self]
  exact ⟨h2, by rw [h2], rfl⟩

/-- Removing one key from an argument object leaves every other property
read unchanged. -/
theorem lookupArg_eraseKey_ne (args : Args) (k k' : String) (h : k' ≠ k) :
    lookupArg (eraseKey args k) k' = lookupArg args k' := by
  induction args with
  | nil => rfl
  | cons p rest ih =>
    unfold lookupArg eraseKey at ih ⊢
    by_cases hp : p.1 = k
    · rw [List.filter_cons_of_neg (by simp [hp]),
        List.find?_cons_of_neg _ (by simp [hp]; intro hh; exact h hh.symm)]
      exact ih
    · rw [List.filter_cons_of_pos (by simp [hp])]
      by_cases hq : p.1 = k'
      · rw [List.find?_cons_of_pos _ (by simp [hq]),
          List.find?_cons_of_pos _ (by simp [hq])]
      · rw [List.find?_cons_of_neg _ (by simp [hq]),
          List.find?_cons_of_neg _ (by simp [hq])]
        exact ih

/-- A property read on the removed key itself yields undefined. -/
theorem lookupArg_eraseKey_self (args : Args) (k : String) :
    lookupArg (eraseKey args k) k = none := by
  have hfind : List.find? (fun p => p.1 = k) (eraseKey args k) = none := by
    rw [List.find?_eq_none]
    intro p hp
    have h2 := (List.mem_filter.mp hp).2
    simp only [decide_eq_true_eq] at h2 ⊢
    exact h2
  simp [lookupArg, hfind]

/-- When the supplied value at a key is falsy, every truthiness-guarded
query append is the same with and without that binding: a matching key
contributes nothing either way, and every other key reads the same value. -/
theorem addParam_eraseKey (args : Args) (k : String) (v : Json)
    (hk : lookupArg args k = some v) (hv : truthy v = false) (k' : String) :
    addParam (eraseKey args k) k' = addParam args k' := by
  by_cases h : k' = k
  · subst h
    simp [addParam, lookupArg_eraseKey_self, hk, hv]
  · rw [addParam, addParam, lookupArg_eraseKey_ne args k k' h]

/-- C9: for the truthiness-guarded GET tools (volkern_list_leads,
volkern_list_citas, volkern_list_conversaciones), any supplied parameter
whose value is falsy — the number 0, the empty string, false, or null — is
omitted from the query exactly as if it had not been supplied: for every
argument object and every key holding a falsy value, the built request
equals the one built from the arguments with that binding removed.  The
concrete singleton instances for 0, the empty string and false are
included; by contrast volkern_list_servicios tests activo against
undefined only, so a supplied activo false produces activo=false. -/
theorem falsy_optionals_omitted (args : Args) (k : String) (v : Json)
    (hk : lookupArg args k = some v) (hv : truthy v = false) :
    (buildRequest "volkern_list_leads" args =
      buildRequest "volkern_list_leads" (eraseKey args k)) ∧
    (buildRequest "volkern_list_citas" args =
      buildRequest "volkern_list_citas" (eraseKey args k)) ∧
    (buildRequest "volkern_list_conversaciones" args =
      buildRequest "volkern_list_conversaciones" (eraseKey args k)) ∧
    (buildRequest "volkern_list_leads" [("page", Json.num 0)] =
      .ok ⟨"/leads?", "GET", none⟩) ∧
    (buildRequest "volkern_list_leads" [("search", Json.str "")] =
      .ok ⟨"/leads?", "GET", none⟩) ∧
    (buildRequest "volkern_list_leads" [("estado", Json.bool false)] =
      .ok ⟨"/leads?", "GET", none⟩) ∧
    (buildRequest "volkern_list_servicios" [("activo", Json.bool false)] =
      .ok ⟨"/servicios?activo=false", "GET", none⟩) := by
  have ha := addParam_eraseKey args k v hk hv
  refine ⟨?_, ?_, ?_, rfl, rfl, rfl, rfl⟩
  · have h1 : buildRequest "volkern_list_leads" args =
        .ok ⟨"/leads?" ++ encodeParams (listLeadsParams args), "GET", none⟩ := rfl
    have h2 : buildRequest "volkern_list_leads" (eraseKey args k) =
        .ok ⟨"/leads?" ++ encodeParams (listLeadsParams (eraseKey args k)), "GET", none⟩ := rfl
    rw [h1, h2]
    simp [listLeadsParams, ha]
  · have h1 : buildRequest "volkern_list_citas" args =
        .ok ⟨"/citas?" ++ encodeParams (listCitasParams args), "GET", none⟩ := rfl
    have h2 : buildRequest "volkern_list_citas" (eraseKey args k) =
        .ok ⟨"/citas?" ++ encodeParams (listCitasParams (eraseKey args k)), "GET", none⟩ := rfl
    rw [h1, h2]
    simp [listCitasParams, ha]
  · have h1 : buildRequest "volkern_list_conversaciones" args =
        .ok ⟨"/mensajes/conversaciones?" ++ encodeParams (listConversacionesParams args),
          "GET", none⟩ := rfl
    have h2 : buildRequest "volkern_list_conversaciones" (eraseKey args k) =
        .ok ⟨"/mensajes/conversaciones?"
          ++ encodeParams (listConversacionesParams (eraseKey args k)), "GET", none⟩ := rfl
    rw [h1, h2]
    simp [listConversacionesParams, ha]

/-- Witness for C9: a falsy page 0 supplied alongside another parameter
builds the same request as the arguments with the page binding removed. -/
theorem falsy_optionals_omitted_witness :
    (lookupArg [("estado", Json.str "nuevo"), ("page", Json.num 0)] "page" =
      some (Json.num 0)) ∧
    (eraseKey [("estado", Json.str "nuevo"), ("page", Json.num 0)] "page" =
      [("estado", Json.str "nuevo")]) ∧
    buildRequest "volkern_list_leads" [("estado", Json.str "nuevo"), ("page", Json.num 0)] =
      buildRequest "volkern_list_leads"
        (eraseKey [("estado", Json.str "nuevo"), ("page", Json.num 0)] "page") :=
  ⟨rfl, rfl,
    (falsy_optionals_omitted [("estado", Json.str "nuevo"), ("page", Json.num 0)]
      "page" (Json.num 0) rfl rfl).1⟩

/-- C10: whenever the arguments of volkern_complete_task contain taskId,
the request is PATCH /tasks/taskId with body exactly the constant
completada true; every other supplied argument is discarded and appears in
neither the path, the query, nor the body. -/
theorem complete_task_request (args : Args) (v : Json)
    (h : lookupArg args "taskId" = some v) :
    buildRequest "volkern_complete_task" args =
      .ok ⟨"/tasks/" ++ jsString v, "PATCH", some [("completada", Json.bool true)]⟩ := by
  have hb : buildRequest "volkern_complete_task" args =
      .ok ⟨"/tasks/" ++ jsStringOpt (lookupArg args "taskId"), "PATCH",
        some [("completada", Json.bool true)]⟩ := rfl
  rw [hb, h]
  rfl

/-- Witness for C10 with an extra argument that is discarded. -/
theorem complete_task_request_witness :
    (lookupArg [("taskId", Json.str "t1"), ("extra", Json.num 7)] "taskId" =
      some (Json.str "t1")) ∧
    buildRequest "volkern_complete_task" [("taskId", Json.str "t1"), ("extra", Json.num 7)] =
      .ok ⟨"/tasks/t1", "PATCH", some [("completada", Json.bool true)]⟩ :=
  ⟨rfl, complete_task_request [("taskId", Json.str "t1"), ("extra", Json.num 7)]
    (Json.str "t1") rfl⟩

end Volkern
